import Mathlib

/-!
Verification of the lab-pi-setup device agents against their specification.

The development shallowly embeds the three services:
* `SensorReader` — src/services/sensor_reader.py (pH/temperature poller),
* `CameraMonitor` — src/services/camera_monitor.py (frame poller + retention sweep),
* `LabBridge` — src/services/lab_bridge.py (local HTTP query service).

Conventions of the embedding:
* wall-clock instants and file modification times are integers (epoch seconds);
* sensor values and configured bounds are rationals (the code only ever
  compares and formats them);
* the filesystem pieces each service touches are explicit values: a directory
  is a list of entries (name, mtime, bytes), the readings CSV is an optional
  list of lines (`none` = the file does not exist), logs are lists of lines;
* randomness (`random.uniform`) is a draw `u ∈ [0,1]` passed in explicitly;
* `datetime.fromisoformat` is an arbitrary parameter
  `parse : String → Option ℤ` (`none` = `ValueError`).
-/

namespace LabPi

/-- Ordering of Python's `sorted` on strings: lexicographic by code point. -/
def strLe (a b : String) : Bool := decide (a.data ≤ b.data)

/-- Insert into a `strLe`-sorted list, keeping it sorted (stable). -/
def insName (x : String) : List String → List String
  | [] => [x]
  | y :: ys => if strLe x y then x :: y :: ys else y :: insName x ys

/-- Stable sort by `strLe`; embeds Python's `sorted` on a list of names. -/
def isortNames : List String → List String
  | [] => []
  | x :: xs => insName x (isortNames xs)

/-- One file of the camera directory: name, last-modified time, content. -/
structure FileEnt where
  name : String
  mtime : ℤ
  dat : List Nat
deriving DecidableEq

/-- The camera directory as the services observe it. -/
abbrev Dir := List FileEnt

/-- Which names `glob("*.jpg")` matches: suffix `.jpg`, not a hidden file. -/
def isJpg (name : String) : Bool :=
  ".jpg".data.isSuffixOf name.data && decide (name.data.head? ≠ some '.')

end LabPi

namespace SensorReader

open LabPi

/-- Atlas Scientific EZO-pH default I2C address (0x63). -/
def PH_I2C_ADDR : Nat := 0x63

/-- Atlas Scientific EZO-RTD default I2C address (0x66). -/
def TEMP_I2C_ADDR : Nat := 0x66

/-- An opened I2C bus: the parsed reply `read_i2c_sensor` obtains at each
address (`none` models a failed read or non-success status byte). -/
abbrev Bus := Nat → Option ℚ

/-- `read_i2c_sensor(bus, addr)`: the value the sensor at `addr` answers. -/
def read_i2c_sensor (bus : Bus) (addr : Nat) : Option ℚ := bus addr

/-- `random.uniform(a, b)` at draw `u ∈ [0,1]`. -/
def uniform (a b u : ℚ) : ℚ := a + u * (b - a)

/-- Python `round(x, 2)`. -/
def round2 (x : ℚ) : ℚ := (round (x * 100) : ℤ) / 100

/-- `read_ph(bus, simulate)`: simulated draw from `uniform(6.5, 7.5)`,
`None` without a bus, otherwise the hardware reply at `PH_I2C_ADDR`. -/
def read_ph (bus : Option Bus) (simulate : Bool) (u : ℚ) : Option ℚ :=
  if simulate then some (round2 (uniform (13/2) (15/2) u))
  else
    match bus with
    | none => none
    | some b => read_i2c_sensor b PH_I2C_ADDR

/-- `read_temperature(bus, simulate)`: simulated draw from
`uniform(22.0, 26.0)`, `None` without a bus, else the reply at
`TEMP_I2C_ADDR`. -/
def read_temperature (bus : Option Bus) (simulate : Bool) (u : ℚ) : Option ℚ :=
  if simulate then some (round2 (uniform 22 26 u))
  else
    match bus with
    | none => none
    | some b => read_i2c_sensor b TEMP_I2C_ADDR

/-- The `sensors:` section of the configuration. -/
structure SensorsConfig where
  ph_enabled : Bool
  temp_enabled : Bool
  read_interval_seconds : ℤ
  ph_range : ℚ × ℚ
  temp_range : ℚ × ℚ
  simulate : Bool
deriving DecidableEq

/-- The hardcoded `sensors:` defaults of `load_config`. -/
def defaultSensors : SensorsConfig :=
  { ph_enabled := true
    temp_enabled := true
    read_interval_seconds := 10
    ph_range := (4, 10)
    temp_range := (15, 45)
    simulate := false }

/-- The pH warning line `check_alerts` builds. -/
def phAlertMsg (ph ph_min ph_max : ℚ) : String :=
  "⚠️ pH OUT OF RANGE: " ++ toString ph ++ " (expected " ++ toString ph_min
    ++ "-" ++ toString ph_max ++ ")"

/-- The temperature warning line `check_alerts` builds. -/
def tempAlertMsg (temp temp_min temp_max : ℚ) : String :=
  "⚠️ Temperature OUT OF RANGE: " ++ toString temp ++ "°C (expected "
    ++ toString temp_min ++ "-" ++ toString temp_max ++ "°C)"

/-- `check_alerts(ph, temp, config)`: the list of alert messages for the
values outside their configured ranges (the best-effort HTTP push of that
list is a side channel and not part of the returned data). -/
def check_alerts (ph temp : Option ℚ) (cfg : SensorsConfig) : List String :=
  (match ph with
   | some p =>
     if p < cfg.ph_range.1 ∨ p > cfg.ph_range.2 then
       [phAlertMsg p cfg.ph_range.1 cfg.ph_range.2]
     else []
   | none => []) ++
  (match temp with
   | some t =>
     if t < cfg.temp_range.1 ∨ t > cfg.temp_range.2 then
       [tempAlertMsg t cfg.temp_range.1 cfg.temp_range.2]
     else []
   | none => [])

/-- One line of `readings.csv`: the header `csv.writer` writes once, or a
data row (string timestamp, optional pH, optional temperature; an absent
value is written as the empty field). -/
inductive CsvLine where
  | header
  | data (timestamp : String) (ph temp : Option ℚ)
deriving DecidableEq

/-- `write_csv(timestamp, ph, temp)` acting on the file state
(`none` = `readings.csv` does not exist): writes the header first when the
file is missing, then appends the data row. -/
def write_csv (timestamp : String) (ph temp : Option ℚ)
    (file : Option (List CsvLine)) : List CsvLine :=
  let row := CsvLine.data timestamp ph temp
  match file with
  | none => [CsvLine.header, row]
  | some lines => lines ++ [row]

/-- The data row a `write_csv` invocation appends. -/
def dataOf (w : String × Option ℚ × Option ℚ) : CsvLine :=
  CsvLine.data w.1 w.2.1 w.2.2

/-- A sequence of `write_csv` invocations (possibly spanning process
restarts: only the file state persists), threaded through the file state. -/
def runWrites (file : Option (List CsvLine)) :
    List (String × Option ℚ × Option ℚ) → Option (List CsvLine)
  | [] => file
  | w :: rest => runWrites (some (write_csv w.1 w.2.1 w.2.2 file)) rest

/-- The startup section of `main` (sensor_reader.py lines 166-178).
`hasI2C` is `HAS_I2C` (the `smbus2` import succeeded), `simulate` the
configured `sensors.simulate`, and `smbus_open` the outcome of
`smbus2.SMBus(I2C_BUS)` (`none` = the constructor raises).  The bus is only
opened when the library is present and simulation was not requested; only a
failing open inside that branch flips `simulate` to `True`. -/
def main_startup (hasI2C : Bool) (simulate : Bool) (smbus_open : Option Bus) :
    Option Bus × Bool :=
  if hasI2C && !simulate then
    match smbus_open with
    | some bus => (some bus, simulate)
    | none => (none, true)
  else (none, simulate)

end SensorReader

namespace CameraMonitor

open LabPi

/-- `cleanup_old_images(keep_hours)` at wall clock `now`: removes every
`*.jpg` file whose modification time is before `now - keep_hours * 3600`. -/
def cleanup_old_images (keep_hours : ℤ) (now : ℤ) (dir : Dir) : Dir :=
  let cutoff := now - keep_hours * 3600
  dir.filter fun f => !(isJpg f.name && decide (f.mtime < cutoff))

/-- `save_frame(image_bytes)` at timestamp `ts` (the `strftime` text of
`now`): writes `ts ++ ".jpg"`, truncating any file of that name. -/
def save_frame (ts : String) (image_bytes : List Nat) (now : ℤ) (dir : Dir) :
    Dir :=
  let fname := ts ++ ".jpg"
  dir.filter (fun f => !(f.name == fname)) ++ [⟨fname, now, image_bytes⟩]

/-- One iteration of the `while True` body of `main` (camera_monitor.py
lines 153-164) as it acts on the camera directory.  `capture` is the outcome
of `capture_frame` (`none` = acquisition or encoding failed — reported by a
`None` return, not by raising).  `save_raises` models `save_frame` raising
(an `OSError` out of `makedirs`/`open`/`write`, the only way persistence
fails); the whole body sits in one `try/except`, so such an exception is
caught at line 161 before `cleanup_old_images` runs and the rest of the
iteration — the sweep included — is skipped.  The raising save is modelled
as leaving the directory unchanged (the `makedirs`/`open` failure case);
whatever partial file a failed `write` could leave behind, `os.remove` is
never reached in that iteration.  On a successful save the sweep runs; the
optional upload does not touch the directory. -/
def loop_iter (capture : Option (List Nat)) (save_raises : Bool)
    (ts : String) (now keep_hours : ℤ) (dir : Dir) : Dir :=
  match capture with
  | none => cleanup_old_images keep_hours now dir
  | some image_bytes =>
    if save_raises then dir
    else cleanup_old_images keep_hours now (save_frame ts image_bytes now dir)

end CameraMonitor

namespace LabBridge

open LabPi

/-- One row of `readings.csv` as `csv.DictReader` hands it to the handlers:
`timestamp` is `none` when the dict has no `timestamp` key (the file's
header lacks that column, the `KeyError` case). -/
structure CsvRow where
  timestamp : Option String
  ph : String
  temp_c : String
deriving DecidableEq

/-- The on-disk and clock state a bridge request observes: wall clock as
epoch seconds and as `datetime.now().isoformat()` text, the camera
directory, `readings.csv` (`none` = absent), and `alerts.log`. -/
structure BridgeState where
  now : ℤ
  nowIso : String
  cameraDir : Dir
  sensor_csv : Option (List CsvRow)
  alerts_log : List String
deriving DecidableEq

/-- A response body of the bridge. -/
inductive Body where
  | image (dat : List Nat)
  | csv (text : String)
  | jsonError (msg : String)
  | jsonAck (status message : String)
deriving DecidableEq

/-- An HTTP response of the bridge. -/
structure HttpResponse where
  status : Nat
  body : Body
deriving DecidableEq

/-- `get_latest_image_path()`: `sorted(glob("*.jpg"))[-1]`, or `None` when
no image matches. -/
def get_latest_image_path (dir : Dir) : Option String :=
  (isortNames ((dir.map FileEnt.name).filter isJpg)).getLast?

/-- `GET /camera/latest`: `send_file` of the latest image, else 404. -/
def camera_latest (st : BridgeState) : HttpResponse :=
  match get_latest_image_path st.cameraDir with
  | some path =>
    match st.cameraDir.find? (fun f => f.name == path) with
    | some f => ⟨200, Body.image f.dat⟩
    | none => ⟨404, Body.jsonError "No camera images found"⟩
  | none => ⟨404, Body.jsonError "No camera images found"⟩

/-- Whether `/sensors/history` keeps a row: its `timestamp` field parses
(`parse` embeds `datetime.fromisoformat`; `KeyError`/`ValueError` rows are
skipped by the `continue`) and the parsed time is at or after `cutoff`. -/
def keepRow (parse : String → Option ℤ) (cutoff : ℤ) (row : CsvRow) : Bool :=
  match row.timestamp with
  | none => false
  | some s =>
    match parse s with
    | none => false
    | some ts => decide (cutoff ≤ ts)

/-- The line `/sensors/history` renders for a kept row. -/
def renderRow (row : CsvRow) : String :=
  row.timestamp.getD "" ++ "," ++ row.ph ++ "," ++ row.temp_c

/-- `GET /sensors/history?hours=N`: filters the CSV rows to those with
timestamp at or after `now - hours`, returns them under the fixed header;
a missing file or an empty selection yields the header-only body. -/
def sensors_history (parse : String → Option ℤ) (hours : ℤ)
    (st : BridgeState) : HttpResponse :=
  let cutoff := st.now - hours * 3600
  match st.sensor_csv with
  | none => ⟨200, Body.csv "timestamp,ph,temp_c\n"⟩
  | some allRows =>
    let rows := allRows.filter (keepRow parse cutoff)
    if rows.isEmpty then ⟨200, Body.csv "timestamp,ph,temp_c\n"⟩
    else
      ⟨200, Body.csv (String.intercalate "\n"
        ("timestamp,ph,temp_c" :: rows.map renderRow) ++ "\n")⟩

/-- `POST /alert`: `data` is the JSON object of the request (`none` =
unparseable body, which `get_json(silent=True)` turns into `{}`); appends
one timestamped line to `alerts.log` and acknowledges with the message. -/
def receive_alert (data : Option (List (String × String)))
    (st : BridgeState) : HttpResponse × BridgeState :=
  let message :=
    match data with
    | none => "Unknown alert"
    | some kv => (kv.lookup "message").getD "Unknown alert"
  let line := st.nowIso ++ " | " ++ message
  (⟨200, Body.jsonAck "received" message⟩,
   { st with alerts_log := st.alerts_log ++ [line] })

end LabBridge

namespace LabPi

theorem strLe_refl (a : String) : strLe a a = true := by
  simp [strLe]

theorem strLe_total (a b : String) : strLe a b = true ∨ strLe b a = true := by
  simp only [strLe, decide_eq_true_eq]
  exact le_total a.data b.data

theorem strLe_trans {a b c : String} (h1 : strLe a b = true)
    (h2 : strLe b c = true) : strLe a c = true := by
  simp only [strLe, decide_eq_true_eq] at h1 h2 ⊢
  exact le_trans h1 h2

theorem mem_insName {y x : String} {l : List String} :
    y ∈ insName x l ↔ y = x ∨ y ∈ l := by
  induction l with
  | nil => simp [insName]
  | cons z zs ih =>
    by_cases h : strLe x z = true
    · simp [insName, h]
    · simp [insName, h, ih]
      tauto

theorem pairwise_insName {x : String} {l : List String}
    (h : l.Pairwise (fun a b => strLe a b = true)) :
    (insName x l).Pairwise (fun a b => strLe a b = true) := by
  induction l with
  | nil => simp [insName]
  | cons z zs ih =>
    rcases List.pairwise_cons.mp h with ⟨hz, hzs⟩
    by_cases hxz : strLe x z = true
    · rw [insName, if_pos hxz]
      refine List.pairwise_cons.mpr ⟨?_, h⟩
      intro b hb
      rcases List.mem_cons.mp hb with rfl | hb2
      · exact hxz
      · exact strLe_trans hxz (hz b hb2)
    · rw [insName, if_neg hxz]
      refine List.pairwise_cons.mpr ⟨?_, ih hzs⟩
      intro b hb
      rcases mem_insName.mp hb with rfl | hb2
      · rcases strLe_total b z with hbz | hzb
        · exact absurd hbz hxz
        · exact hzb
      · exact hz b hb2

theorem isortNames_pairwise (l : List String) :
    (isortNames l).Pairwise (fun a b => strLe a b = true) := by
  induction l with
  | nil => simp [isortNames]
  | cons x xs ih => exact pairwise_insName ih

theorem mem_isortNames {y : String} {l : List String} :
    y ∈ isortNames l ↔ y ∈ l := by
  induction l with
  | nil => simp [isortNames]
  | cons x xs ih => simp [isortNames, mem_insName, ih]

theorem mem_of_getLast?_eq_some {α : Type} {l : List α} {a : α}
    (h : l.getLast? = some a) : a ∈ l := by
  obtain ⟨hne, heq⟩ := List.mem_getLast?_eq_getLast (Option.mem_def.mpr h)
  exact heq ▸ List.getLast_mem hne

theorem pairwise_getLast?_max (l : List String)
    (h : l.Pairwise (fun a b => strLe a b = true)) :
    ∀ m, l.getLast? = some m → ∀ y ∈ l, strLe y m = true := by
  induction l with
  | nil => intro m hm; simp at hm
  | cons a t ih =>
    intro m hm y hy
    cases t with
    | nil =>
      simp at hm hy
      subst hm; subst hy
      exact strLe_refl _
    | cons b t2 =>
      rw [List.getLast?_cons_cons] at hm
      rcases List.pairwise_cons.mp h with ⟨ha, ht⟩
      rcases List.mem_cons.mp hy with rfl | hy2
      · exact ha m (mem_of_getLast?_eq_some hm)
      · exact ih ht m hm y hy2

theorem isortNames_getLast?_of_mem {l : List String} {x : String}
    (hx : x ∈ l) : ∃ m, (isortNames l).getLast? = some m := by
  have hne : isortNames l ≠ [] := by
    intro hnil
    have : x ∈ isortNames l := mem_isortNames.mpr hx
    rw [hnil] at this
    simp at this
  cases hE : (isortNames l).getLast? with
  | some m => exact ⟨m, rfl⟩
  | none => exact absurd (List.getLast?_eq_none_iff.mp hE) hne

end LabPi

namespace SensorReader

theorem runWrites_some (ws : List (String × Option ℚ × Option ℚ))
    (ls : List CsvLine) :
    runWrites (some ls) ws = some (ls ++ ws.map dataOf) := by
  induction ws generalizing ls with
  | nil => simp [runWrites]
  | cons w rest ih =>
    rw [runWrites, ih]
    simp [write_csv, dataOf]

/-- C1: when the I2C library is absent (`HAS_I2C = False`) and simulation is
not requested in the configuration, `main` never enables simulation: the bus
stays `None` and the `simulate` flag stays `false`, so every iteration's
`read_ph` and `read_temperature` return `None` — not the synthetic value the
specification promises.  By contrast the bus-open-failure startup path does
flip `simulate` on, and the simulate branch always yields a value. -/
theorem read_never_simulated_when_library_absent :
    main_startup false false (some fun _ => none) = (none, false) ∧
    read_ph (main_startup false false (some fun _ => none)).1
      (main_startup false false (some fun _ => none)).2 0 = none ∧
    read_temperature (main_startup false false (some fun _ => none)).1
      (main_startup false false (some fun _ => none)).2 0 = none ∧
    main_startup true false none = (none, true) ∧
    (∀ u : ℚ, (read_ph none true u).isSome = true) := by
  refine ⟨rfl, rfl, rfl, rfl, ?_⟩
  intro u
  simp [read_ph]

/-- C3: `write_csv` writes the header row on an invocation iff
`readings.csv` does not yet exist at that invocation, and across any
nonempty sequence of invocations starting from a missing file (restarts
included: only the file state is threaded through) the resulting file holds
the header exactly once, as its first line, before every data row. -/
theorem write_csv_header_once :
    (∀ ts ph temp file, (write_csv ts ph temp file).count CsvLine.header =
      (file.getD []).count CsvLine.header + (if file = none then 1 else 0)) ∧
    (∀ ws, ws ≠ [] →
      runWrites none ws = some (CsvLine.header :: ws.map dataOf) ∧
      (CsvLine.header :: ws.map dataOf).count CsvLine.header = 1 ∧
      (CsvLine.header :: ws.map dataOf).head? = some CsvLine.header) := by
  constructor
  · intro ts ph temp file
    cases file with
    | none => simp [write_csv]
    | some lines => simp [write_csv]
  · intro ws hne
    cases ws with
    | nil => exact absurd rfl hne
    | cons w rest =>
      refine ⟨?_, ?_, rfl⟩
      · rw [runWrites, runWrites_some]
        simp [write_csv, dataOf]
      · have hz : ∀ w2 : String × Option ℚ × Option ℚ,
            ¬dataOf w2 = CsvLine.header := by
          intro w2 h
          simp [dataOf] at h
        have hz2 : (List.map dataOf rest).count CsvLine.header = 0 := by
          rw [List.count_eq_zero]
          intro hmem
          rcases List.mem_map.mp hmem with ⟨w2, _, heq⟩
          exact hz w2 heq
        simp [List.count_cons, hz2, hz w]

/-- C3 witness: a single invocation on a missing file produces the header
followed by the one data row. -/
theorem write_csv_header_once_witness :
    runWrites none [("2025-01-01T00:00:00", some 7, some 25)] =
      some (CsvLine.header ::
        [("2025-01-01T00:00:00", some 7, some 25)].map dataOf) ∧
    (CsvLine.header ::
        [("2025-01-01T00:00:00", some 7, some 25)].map dataOf).count
      CsvLine.header = 1 ∧
    (CsvLine.header ::
        [("2025-01-01T00:00:00", some 7, some 25)].map dataOf).head? =
      some CsvLine.header :=
  write_csv_header_once.2 [("2025-01-01T00:00:00", some 7, some 25)]
    (by decide)

/-- C4: `check_alerts` emits a pH alert iff the present value lies outside
the configured `ph_range` (and symmetrically for temperature), the message
carries the value and both configured bounds, and concretely with
`ph_range = [6, 8]` a reading of pH 9 (temperature in range) produces
exactly the one pH alert while pH 7 produces no alert. -/
theorem check_alerts_correct :
    (∀ (p : ℚ) (cfg : SensorsConfig),
      p < cfg.ph_range.1 ∨ p > cfg.ph_range.2 →
        check_alerts (some p) none cfg =
          [phAlertMsg p cfg.ph_range.1 cfg.ph_range.2]) ∧
    (∀ (p : ℚ) (cfg : SensorsConfig),
      ¬(p < cfg.ph_range.1 ∨ p > cfg.ph_range.2) →
        check_alerts (some p) none cfg = []) ∧
    (∀ (t : ℚ) (cfg : SensorsConfig),
      (check_alerts none (some t) cfg).length =
        if t < cfg.temp_range.1 ∨ t > cfg.temp_range.2 then 1 else 0) ∧
    (∀ p mn mx : ℚ, ∃ s1 s2 s3 s4 : List Char,
      (phAlertMsg p mn mx).data =
        s1 ++ (toString p).data ++ s2 ++ (toString mn).data ++ s3
          ++ (toString mx).data ++ s4) ∧
    check_alerts (some 9) (some 25)
        { defaultSensors with ph_range := (6, 8) } = [phAlertMsg 9 6 8] ∧
    check_alerts (some 7) (some 25)
        { defaultSensors with ph_range := (6, 8) } = [] := by
  refine ⟨?_, ?_, ?_, ?_, ?_, ?_⟩
  · intro p cfg h
    simp [check_alerts, h]
  · intro p cfg h
    simp [check_alerts, h]
  · intro t cfg
    by_cases h : t < cfg.temp_range.1 ∨ t > cfg.temp_range.2 <;>
      simp [check_alerts, h]
  · intro p mn mx
    refine ⟨"⚠️ pH OUT OF RANGE: ".data, " (expected ".data, "-".data,
      ")".data, ?_⟩
    simp [phAlertMsg]
  · simp [check_alerts, defaultSensors]
    norm_num
  · simp [check_alerts, defaultSensors]
    norm_num

/-- C4 witness: the out-of-range branch at pH 9 with bounds [6, 8]. -/
theorem check_alerts_correct_witness :
    check_alerts (some 9) none { defaultSensors with ph_range := (6, 8) } =
      [phAlertMsg 9
        ({ defaultSensors with ph_range := (6, 8) } : SensorsConfig).ph_range.1
        ({ defaultSensors with ph_range := (6, 8) } : SensorsConfig).ph_range.2] :=
  check_alerts_correct.1 9 { defaultSensors with ph_range := (6, 8) }
    (by norm_num [defaultSensors])

end SensorReader

namespace CameraMonitor

open LabPi

/-- C2: one retention sweep with window `keep_hours` hours removes a `.jpg`
artifact iff its modification time is strictly older than
`now - keep_hours · 3600`; everything at or after that cutoff stays, and
the sweep never introduces entries that were not in the directory. -/
theorem cleanup_old_images_correct (keep_hours now : ℤ) (dir : Dir) :
    (∀ g ∈ cleanup_old_images keep_hours now dir, g ∈ dir) ∧
    ∀ f ∈ dir, isJpg f.name = true →
      (f ∉ cleanup_old_images keep_hours now dir ↔
        f.mtime < now - keep_hours * 3600) := by
  simp only [cleanup_old_images]
  constructor
  · intro g hg
    exact (List.mem_filter.mp hg).1
  · intro f hf hjpg
    constructor
    · intro hnot
      by_contra hge
      apply hnot
      refine List.mem_filter.mpr ⟨hf, ?_⟩
      simp [hjpg, hge]
    · intro hlt hmem
      have hp := (List.mem_filter.mp hmem).2
      simp [hjpg, hlt] at hp

/-- C2 witness: with a 1-hour window at time 10000 the artifact modified at
100 (older than the cutoff 6400) is removed. -/
theorem cleanup_old_images_correct_witness :
    (⟨"a.jpg", 100, []⟩ : FileEnt) ∉
        cleanup_old_images 1 10000
          [⟨"a.jpg", 100, []⟩, ⟨"b.jpg", 9000, []⟩] ↔
      (⟨"a.jpg", 100, []⟩ : FileEnt).mtime < 10000 - 1 * 3600 :=
  (cleanup_old_images_correct 1 10000
      [⟨"a.jpg", 100, []⟩, ⟨"b.jpg", 9000, []⟩]).2
    ⟨"a.jpg", 100, []⟩ (by decide) (by decide)

/-- C7 counterexample: an iteration whose `save_frame` raises does not run
the retention sweep — the artifact expired at mtime 100 (cutoff 6400)
survives the iteration untouched, although the sweep alone would have
removed it. -/
theorem loop_iter_skips_sweep_on_save_failure :
    loop_iter (some [7]) true "20250101_120000" 10000 1
        [⟨"a.jpg", 100, []⟩] = [⟨"a.jpg", 100, []⟩] ∧
    (⟨"a.jpg", 100, []⟩ : FileEnt) ∈
      loop_iter (some [7]) true "20250101_120000" 10000 1
        [⟨"a.jpg", 100, []⟩] ∧
    (⟨"a.jpg", 100, []⟩ : FileEnt) ∉
      cleanup_old_images 1 10000 [⟨"a.jpg", 100, []⟩] := by
  refine ⟨rfl, by decide, by decide⟩

/-- C7 (amended): the retention sweep runs after the capture attempt
regardless of whether acquisition succeeded — an iteration whose
`capture_frame` returned `None` sweeps the unchanged directory, and with a
non-raising save an expired artifact is gone whether the capture succeeded
or not — but not regardless of persistence: an iteration in which
`save_frame` raises is aborted by the loop's `try/except` before
`cleanup_old_images`, leaving the directory as it was. -/
theorem loop_iter_sweeps_unless_save_raises :
    (∀ (save_raises : Bool) ts now keep_hours dir,
      loop_iter none save_raises ts now keep_hours dir =
        cleanup_old_images keep_hours now dir) ∧
    (∀ capture ts now keep_hours (dir : Dir) (f : FileEnt), f ∈ dir →
      isJpg f.name = true → f.mtime < now - keep_hours * 3600 →
      f ∉ loop_iter capture false ts now keep_hours dir) ∧
    (∀ image_bytes ts now keep_hours (dir : Dir),
      loop_iter (some image_bytes) true ts now keep_hours dir = dir) := by
  refine ⟨?_, ?_, ?_⟩
  · intro save_raises ts now keep_hours dir
    rfl
  · intro capture ts now keep_hours dir f hmem hjpg hold hcontra
    cases capture with
    | none =>
      simp only [loop_iter, cleanup_old_images] at hcontra
      have hp := (List.mem_filter.mp hcontra).2
      simp [hjpg, hold] at hp
    | some image_bytes =>
      simp only [loop_iter, Bool.false_eq_true, if_false,
        cleanup_old_images] at hcontra
      have hp := (List.mem_filter.mp hcontra).2
      simp [hjpg, hold] at hp
  · intro image_bytes ts now keep_hours dir
    rfl

/-- C7 witness: with a successful, non-raising iteration the expired
artifact is removed (and, per the theorem's first conjunct, a failed
capture still sweeps). -/
theorem loop_iter_sweeps_unless_save_raises_witness :
    (⟨"a.jpg", 100, []⟩ : FileEnt) ∉
      loop_iter (some [7]) false "20250101_120000" 10000 1
        [⟨"a.jpg", 100, []⟩] :=
  loop_iter_sweeps_unless_save_raises.2.1 (some [7]) "20250101_120000"
    10000 1 [⟨"a.jpg", 100, []⟩] ⟨"a.jpg", 100, []⟩ (by decide) (by decide)
    (by decide)

end CameraMonitor

namespace LabBridge

open LabPi

theorem sensors_history_eq (parse : String → Option ℤ) (hours : ℤ)
    (st : BridgeState) :
    sensors_history parse hours st =
      ⟨200, Body.csv (String.intercalate "\n" ("timestamp,ph,temp_c" ::
        ((st.sensor_csv.getD []).filter
          (keepRow parse (st.now - hours * 3600))).map renderRow)
        ++ "\n")⟩ := by
  cases hcsv : st.sensor_csv with
  | none =>
    simp [sensors_history, hcsv]
    rfl
  | some allRows =>
    by_cases hE :
        (allRows.filter (keepRow parse (st.now - hours * 3600))).isEmpty
    · have hnil := List.isEmpty_iff.mp hE
      simp [sensors_history, hcsv, hE, hnil]
      rfl
    · simp [sensors_history, hcsv, hE]

theorem sensors_history_status (parse : String → Option ℤ) (hours : ℤ)
    (st : BridgeState) : (sensors_history parse hours st).status = 200 := by
  rw [sensors_history_eq]

/-- C5: for every lookback window, `/sensors/history` answers 200 with a
body whose first line is the fixed header `timestamp,ph,temp_c` followed by
exactly the logged rows whose parsed timestamp is at or after
`now - hours·3600` (header-only when the log is absent or no row
qualifies). -/
theorem sensors_history_correct (parse : String → Option ℤ) (hours : ℤ)
    (st : BridgeState) :
    (sensors_history parse hours st).status = 200 ∧
    (sensors_history parse hours st).body =
      Body.csv (String.intercalate "\n" ("timestamp,ph,temp_c" ::
        ((st.sensor_csv.getD []).filter
          (keepRow parse (st.now - hours * 3600))).map renderRow) ++ "\n") ∧
    ∀ row ∈ st.sensor_csv.getD [],
      (keepRow parse (st.now - hours * 3600) row = true ↔
        ∃ s t, row.timestamp = some s ∧ parse s = some t ∧
          st.now - hours * 3600 ≤ t) := by
  refine ⟨sensors_history_status parse hours st, ?_, ?_⟩
  · rw [sensors_history_eq]
  · intro row hrow
    unfold keepRow
    cases hts : row.timestamp with
    | none => simp
    | some s =>
      cases hp : parse s with
      | none => simp [hp]
      | some t0 => simp [hp]

/-- C5 witness: at time 10000 with a 1-hour window, the row stamped "t1"
(parsed to 9000 ≥ cutoff 6400) is kept, and the characterization holds. -/
theorem sensors_history_correct_witness :
    keepRow (fun s => if s = "t1" then some (9000 : ℤ) else none)
        ((⟨10000, "iso", [], some [⟨some "t1", "7", "25"⟩], []⟩ :
          BridgeState).now - 1 * 3600) ⟨some "t1", "7", "25"⟩ = true ↔
      ∃ s t, (⟨some "t1", "7", "25"⟩ : CsvRow).timestamp = some s ∧
        (fun s => if s = "t1" then some (9000 : ℤ) else none) s = some t ∧
        (⟨10000, "iso", [], some [⟨some "t1", "7", "25"⟩], []⟩ :
          BridgeState).now - 1 * 3600 ≤ t :=
  (sensors_history_correct (fun s => if s = "t1" then some (9000 : ℤ) else none)
      1 ⟨10000, "iso", [], some [⟨some "t1", "7", "25"⟩], []⟩).2.2
    ⟨some "t1", "7", "25"⟩ (by decide)

/-- C10: a CSV row whose timestamp field is missing or unparseable is
silently skipped by `/sensors/history`: the response equals the one for the
log without that row, and the request still succeeds with status 200. -/
theorem sensors_history_skips_unparseable (parse : String → Option ℤ)
    (hours : ℤ) (st : BridgeState) (pre post : List CsvRow) (row : CsvRow)
    (hbad : row.timestamp = none ∨
      ∀ s, row.timestamp = some s → parse s = none) :
    sensors_history parse hours
        { st with sensor_csv := some (pre ++ row :: post) } =
      sensors_history parse hours
        { st with sensor_csv := some (pre ++ post) } ∧
    (sensors_history parse hours
        { st with sensor_csv := some (pre ++ row :: post) }).status = 200 := by
  have hk : keepRow parse (st.now - hours * 3600) row = false := by
    rcases hbad with h | h
    · simp [keepRow, h]
    · cases hts : row.timestamp with
      | none => simp [keepRow, hts]
      | some s => simp [keepRow, hts, h s hts]
  refine ⟨?_, sensors_history_status _ _ _⟩
  rw [sensors_history_eq, sensors_history_eq]
  simp [List.filter_append, List.filter_cons, hk]

/-- C10 witness: dropping the row with the unparseable stamp "garbage"
leaves the response unchanged, and the query still returns 200. -/
theorem sensors_history_skips_unparseable_witness :
    (sensors_history (fun s => if s = "t1" then some (9000 : ℤ) else none) 1
        { (⟨10000, "iso", [], none, []⟩ : BridgeState) with
          sensor_csv := some ([⟨some "t1", "7", "25"⟩] ++
            ⟨some "garbage", "6", "20"⟩ :: []) } =
      sensors_history (fun s => if s = "t1" then some (9000 : ℤ) else none) 1
        { (⟨10000, "iso", [], none, []⟩ : BridgeState) with
          sensor_csv := some ([⟨some "t1", "7", "25"⟩] ++ []) }) ∧
    (sensors_history (fun s => if s = "t1" then some (9000 : ℤ) else none) 1
        { (⟨10000, "iso", [], none, []⟩ : BridgeState) with
          sensor_csv := some ([⟨some "t1", "7", "25"⟩] ++
            ⟨some "garbage", "6", "20"⟩ :: []) }).status = 200 :=
  sensors_history_skips_unparseable
    (fun s => if s = "t1" then some (9000 : ℤ) else none) 1
    ⟨10000, "iso", [], none, []⟩ [⟨some "t1", "7", "25"⟩] []
    ⟨some "garbage", "6", "20"⟩
    (Or.inr (by intro s hs; simp at hs; rw [← hs]; decide))

theorem get_latest_max {dir : Dir} {f : FileEnt} (hf : f ∈ dir)
    (hjpg : isJpg f.name = true) :
    ∃ path, get_latest_image_path dir = some path ∧
      path ∈ (dir.map FileEnt.name).filter isJpg ∧
      ∀ g ∈ dir, isJpg g.name = true → strLe g.name path = true := by
  have hmemf : f.name ∈ (dir.map FileEnt.name).filter isJpg :=
    List.mem_filter.mpr ⟨List.mem_map.mpr ⟨f, hf, rfl⟩, hjpg⟩
  obtain ⟨m, hm⟩ := isortNames_getLast?_of_mem hmemf
  refine ⟨m, hm, ?_, ?_⟩
  · exact mem_isortNames.mp (mem_of_getLast?_eq_some hm)
  · intro g hg hgjpg
    exact pairwise_getLast?_max _ (isortNames_pairwise _) m hm g.name
      (mem_isortNames.mpr
        (List.mem_filter.mpr ⟨List.mem_map.mpr ⟨g, hg, rfl⟩, hgjpg⟩))

/-- C6: `/camera/latest` answers 404 with the structured error when no
`.jpg` file exists, and otherwise 200 with the bytes of an existing `.jpg`
entry whose name is lexicographically greatest among the `.jpg` files. -/
theorem camera_latest_correct (st : BridgeState) :
    ((∀ f ∈ st.cameraDir, isJpg f.name = false) →
      camera_latest st = ⟨404, Body.jsonError "No camera images found"⟩) ∧
    ∀ f ∈ st.cameraDir, isJpg f.name = true →
      ∃ g, g ∈ st.cameraDir ∧ isJpg g.name = true ∧
        (∀ f2 ∈ st.cameraDir, isJpg f2.name = true →
          strLe f2.name g.name = true) ∧
        camera_latest st = ⟨200, Body.image g.dat⟩ := by
  constructor
  · intro hall
    have hfil : (st.cameraDir.map FileEnt.name).filter isJpg = [] := by
      rw [List.filter_eq_nil_iff]
      intro a ha
      rcases List.mem_map.mp ha with ⟨f, hf, rfl⟩
      simp [hall f hf]
    unfold camera_latest get_latest_image_path
    rw [hfil]
    rfl
  · intro f hf hjpg
    obtain ⟨path, hpath, hpmem, hmax⟩ := get_latest_max hf hjpg
    have hpname : ∃ g ∈ st.cameraDir, g.name = path := by
      rcases List.mem_map.mp (List.mem_filter.mp hpmem).1 with ⟨g, hg, rfl⟩
      exact ⟨g, hg, rfl⟩
    have hfind : ∃ g,
        st.cameraDir.find? (fun x => x.name == path) = some g := by
      rcases hpname with ⟨g, hg, hgn⟩
      have hs : (st.cameraDir.find? (fun x => x.name == path)).isSome := by
        rw [List.find?_isSome]
        exact ⟨g, hg, by simp [hgn]⟩
      exact Option.isSome_iff_exists.mp hs
    rcases hfind with ⟨g, hg⟩
    have hgmem := List.mem_of_find?_eq_some hg
    have hgname : g.name = path := by
      have hb := List.find?_some hg
      simpa using hb
    refine ⟨g, hgmem, ?_, ?_, ?_⟩
    · rw [hgname]
      exact (List.mem_filter.mp hpmem).2
    · intro f2 hf2 hjpg2
      rw [hgname]
      exact hmax f2 hf2 hjpg2
    · simp only [camera_latest, hpath, hg]

/-- C6 witness: with two frames on disk, the response is 200 with the bytes
of the greatest-named one. -/
theorem camera_latest_correct_witness :
    ∃ g, g ∈ (⟨10000, "x", [⟨"a.jpg", 5, [7]⟩, ⟨"b.jpg", 6, [9]⟩], none, []⟩ :
        BridgeState).cameraDir ∧ isJpg g.name = true ∧
      (∀ f2 ∈ (⟨10000, "x", [⟨"a.jpg", 5, [7]⟩, ⟨"b.jpg", 6, [9]⟩], none,
          []⟩ : BridgeState).cameraDir, isJpg f2.name = true →
        strLe f2.name g.name = true) ∧
      camera_latest
          ⟨10000, "x", [⟨"a.jpg", 5, [7]⟩, ⟨"b.jpg", 6, [9]⟩], none, []⟩ =
        ⟨200, Body.image g.dat⟩ :=
  (camera_latest_correct
      ⟨10000, "x", [⟨"a.jpg", 5, [7]⟩, ⟨"b.jpg", 6, [9]⟩], none, []⟩).2
    ⟨"a.jpg", 5, [7]⟩ (by decide) (by decide)

/-- C9: `/camera/latest` is a pure function of the camera directory: two
requests observing the same directory state — whatever else (clock, CSV,
logs) changed between them — return identical responses. -/
theorem camera_latest_deterministic (st st2 : BridgeState)
    (h : st.cameraDir = st2.cameraDir) :
    camera_latest st = camera_latest st2 := by
  unfold camera_latest
  rw [h]

/-- C9 witness: two states sharing the directory but differing in clock and
sensor log give the same response. -/
theorem camera_latest_deterministic_witness :
    camera_latest ⟨1, "a", [⟨"x.jpg", 5, [1]⟩], none, []⟩ =
      camera_latest ⟨2, "b", [⟨"x.jpg", 5, [1]⟩], some [], ["z"]⟩ :=
  camera_latest_deterministic _ _ rfl

/-- C8: posting a JSON object carrying `message = m` to `/alert` answers
200 echoing `m`, appends exactly the one timestamped line containing `m` to
the alert log with the prior contents unchanged, and touches no other
state. -/
theorem receive_alert_correct (m : String) (st : BridgeState) :
    (receive_alert (some [("message", m)]) st).1.status = 200 ∧
    (receive_alert (some [("message", m)]) st).1.body =
      Body.jsonAck "received" m ∧
    (receive_alert (some [("message", m)]) st).2.alerts_log =
      st.alerts_log ++ [st.nowIso ++ " | " ++ m] ∧
    (receive_alert (some [("message", m)]) st).2.cameraDir = st.cameraDir ∧
    (receive_alert (some [("message", m)]) st).2.sensor_csv =
      st.sensor_csv := by
  refine ⟨rfl, ?_, ?_, rfl, rfl⟩ <;> simp [receive_alert, List.lookup]

end LabBridge
